import Mathlib

/-!
Verification development for the deployment orchestration engine of the
kueue-dev tool. The Rust sources under src/ are shallowly embedded: each
effectful function becomes a pure Lean function from an explicit "world"
(the outcomes the external collaborators would return) to a result paired
with a trace of the external effects the function performed, in order.
Blocking sleeps are recorded in the trace; elapsed time is the sum of the
recorded sleep durations (process execution time is abstracted to zero,
which matches how the polling loops in the source account their budget).
-/

namespace KueueDev

/-- Captured output of one external process invocation, mirroring the
fields of std::process::Output that the source inspects. -/
structure CmdOutput where
  success : Bool
  stdout : String
  stderr : String
  deriving DecidableEq, Repr

/-- charsStartWith needle hay is true when needle is a leading segment of
hay; building block for the substring test below. -/
def charsStartWith : List Char → List Char → Bool
  | [], _ => true
  | _ :: _, [] => false
  | a :: as, b :: bs => a == b && charsStartWith as bs

/-- charsHave needle hay is true when needle occurs contiguously somewhere
in hay; models the Rust str::contains used for the conflict signature. -/
def charsHave (needle : List Char) : List Char → Bool
  | [] => needle.isEmpty
  | c :: rest => charsStartWith needle (c :: rest) || charsHave needle rest

/-- Substring containment on strings, modelling str::contains with a
string pattern. -/
def strContains (hay needle : String) : Bool :=
  charsHave needle.data hay.data

/-- Character containment on strings, modelling str::contains with a char
pattern. -/
def strHasChar (s : String) (c : Char) : Bool :=
  s.data.contains c

/-- External effects the orchestration code can perform, recorded in
traces. kubectlGet stands for run_kubectl_output (a read-only query);
runBundle and sdkCleanup are the operator-sdk invocations; the remaining
constructors are the other side effects the claims count. -/
inductive Effect where
  | kubectlGet (args : List String)
  | runBundle (image : String)
  | sdkCleanup
  | sleep (secs : Nat)
  | download (url : String)
  | applyManifest (serverSide : Bool)
  | waitCond (resource : String)
  | deleteNamespace
  | deleteKueueCRs
  | deleteLease
  | imageLoadStart
  | spawnDepWorkers
  | uninstallOp
  | installBundle
  | createKueueCREff
  | fileWrite (path : String)
  | listClusters
  | confirmPrompt
  | kindDelete
  | kindCreate
  | kindGetKubeconfig
  deriving DecidableEq, Repr

/-- Count the trace entries satisfying a predicate. -/
def countEff (p : Effect → Bool) : List Effect → Nat
  | [] => 0
  | e :: t => (if p e then 1 else 0) + countEff p t

def isRunBundleEff : Effect → Bool
  | .runBundle _ => true
  | _ => false

def isCleanupEff : Effect → Bool
  | .sdkCleanup => true
  | _ => false

def isDownloadEff : Effect → Bool
  | .download _ => true
  | _ => false

def isApplyEff : Effect → Bool
  | .applyManifest _ => true
  | _ => false

def isWaitCondEff : Effect → Bool
  | .waitCond _ => true
  | _ => false

def isQueryEff : Effect → Bool
  | .kubectlGet _ => true
  | _ => false

def isFileWriteEff : Effect → Bool
  | .fileWrite _ => true
  | _ => false

def isDeleteNamespaceEff : Effect → Bool
  | .deleteNamespace => true
  | _ => false

def isDeleteKueueCRsEff : Effect → Bool
  | .deleteKueueCRs => true
  | _ => false

/-- Total seconds spent sleeping along a trace. -/
def sleepTotal : List Effect → Nat
  | [] => 0
  | .sleep s :: t => s + sleepTotal t
  | _ :: t => sleepTotal t

/-! ## install/olm.rs: the Conflict-Retry Installer -/

/-- World for run_bundle_with_retry and cleanup_and_retry. bundleSpawn k
and bundleOut k describe the k-th actual operator-sdk run bundle
invocation of the call (spawn failure versus captured output);
catalogCheckOk is the result of the catalog-source pre-check. -/
structure OlmWorld where
  catalogCheckOk : Bool
  bundleSpawn : Nat → Bool
  bundleOut : Nat → CmdOutput
  cleanupSpawn : Bool
  cleanupOut : CmdOutput

/-- The conflict signature test of run_bundle_with_retry at olm.rs:338:
the failure text mentions "already exists" on either stream. -/
def conflictSignature (out : CmdOutput) : Bool :=
  strContains out.stderr "already exists" || strContains out.stdout "already exists"

/-- cleanup_and_retry (olm.rs:351-414): run operator-sdk cleanup (its
status is only logged), sleep 3 s, then retry run bundle using the k-th
invocation slot of the world. The error on a failed retry concatenates a
fixed prefix with the retry stdout and stderr. -/
def cleanup_and_retry (w : OlmWorld) (img : String) (k : Nat) :
    Except String Bool × List Effect :=
  if !w.cleanupSpawn then
    (Except.error "Failed to run operator-sdk cleanup", [Effect.sdkCleanup])
  else
    let tr := [Effect.sdkCleanup, Effect.sleep 3, Effect.runBundle img]
    if !w.bundleSpawn k then
      (Except.error "Failed to retry operator-sdk", tr)
    else
      let retry := w.bundleOut k
      if retry.success then
        (Except.ok true, tr)
      else
        (Except.error ("operator-sdk run bundle failed after cleanup:\n"
            ++ retry.stdout ++ "\n" ++ retry.stderr), tr)

/-- The catalog-source pre-check query arguments (olm.rs:293-302). -/
def catalogCheckArgs : List String :=
  ["get", "catalogsource", "kueue-operator-catalog", "-n", "openshift-kueue-operator"]

/-- run_bundle_with_retry (olm.rs:291-348): pre-check the catalog source;
on a hit go straight to cleanup_and_retry (the first actual run bundle
invocation is the retry, slot 0). Otherwise run bundle once (slot 0); on
success done; on a conflict-signature failure cleanup and retry (slot 1);
on any other failure return the original error with no cleanup. -/
def run_bundle_with_retry (w : OlmWorld) (img : String) :
    Except String Bool × List Effect :=
  if w.catalogCheckOk then
    let res := cleanup_and_retry w img 0
    (res.1, Effect.kubectlGet catalogCheckArgs :: res.2)
  else
    let pre := [Effect.kubectlGet catalogCheckArgs, Effect.runBundle img]
    if !w.bundleSpawn 0 then
      (Except.error "Failed to run operator-sdk", pre)
    else
      let out := w.bundleOut 0
      if out.success then
        (Except.ok true, pre)
      else if conflictSignature out then
        let res := cleanup_and_retry w img 1
        (res.1, pre ++ res.2)
      else
        (Except.error ("operator-sdk run bundle failed:\n"
            ++ out.stdout ++ "\n" ++ out.stderr), pre)

/-- Formalisation of the hypothesis of the conflict-retry bound claim:
every attempt that fails does so with the conflict signature, a
pre-existing catalog-source marker counting as an immediate signature
match for attempt 1, and no invocation fails to spawn. -/
def allAttemptsConflict (w : OlmWorld) : Bool :=
  if w.catalogCheckOk then
    w.cleanupSpawn && w.bundleSpawn 0 &&
      !(w.bundleOut 0).success && conflictSignature (w.bundleOut 0)
  else
    w.bundleSpawn 0 && !(w.bundleOut 0).success && conflictSignature (w.bundleOut 0) &&
      w.cleanupSpawn && w.bundleSpawn 1 &&
      !(w.bundleOut 1).success && conflictSignature (w.bundleOut 1)

/-- A world whose catalog-source pre-check hits: the marker is present
before attempt 1 and every real invocation fails with the signature. -/
def olmPrecheckWorld : OlmWorld where
  catalogCheckOk := true
  bundleSpawn := fun _ => true
  bundleOut := fun _ => ⟨false, "", "Error: catalogsource already exists"⟩
  cleanupSpawn := true
  cleanupOut := ⟨true, "", ""⟩

/-- A world whose pre-check misses but whose run bundle invocations all
fail with the conflict signature. -/
def olmConflictWorld : OlmWorld where
  catalogCheckOk := false
  bundleSpawn := fun _ => true
  bundleOut := fun _ => ⟨false, "", "Error: catalogsource already exists"⟩
  cleanupSpawn := true
  cleanupOut := ⟨true, "", ""⟩

/-- A world whose first attempt fails with an unrelated error. -/
def olmUnrelatedWorld : OlmWorld where
  catalogCheckOk := false
  bundleSpawn := fun _ => true
  bundleOut := fun _ => ⟨false, "some output", "ImagePullBackOff: bundle image missing"⟩
  cleanupSpawn := true
  cleanupOut := ⟨true, "", ""⟩

/-- A world in which cleanup itself fails noisily and the post-cleanup
retry then fails with its own distinct output. -/
def olmCleanupFailWorld : OlmWorld where
  catalogCheckOk := true
  bundleSpawn := fun _ => true
  bundleOut := fun _ => ⟨false, "retry stdout", "retry stderr"⟩
  cleanupSpawn := true
  cleanupOut := ⟨false, "", "cleanup boom"⟩

/-! ## install/cert_manager.rs and install/jobset.rs: Idempotent Installers -/

/-- World for one Idempotent Installer run: the marker-namespace check,
the manifest fetch, the apply, and the successive wait_for_condition
results in call order. -/
structure DepWorld where
  nsCheckOk : Bool
  downloadOk : Bool
  applyOk : Bool
  waitOk : Nat → Bool

/-- cert_manager::install (cert_manager.rs:8-67): check the cert-manager
marker namespace; if present return Ok at once; otherwise download the
manifest, apply it, and wait on the three deployments in order, failing
on the first wait that fails. -/
def cert_manager_install (w : DepWorld) (version : String) :
    Except String Unit × List Effect :=
  let nsEff := Effect.kubectlGet ["get", "namespace", "cert-manager"]
  if w.nsCheckOk then
    (Except.ok (), [nsEff])
  else
    let url := "https://github.com/cert-manager/cert-manager/releases/download/"
        ++ version ++ "/cert-manager.yaml"
    if !w.downloadOk then
      (Except.error "Failed to download cert-manager manifest", [nsEff, .download url])
    else if !w.applyOk then
      (Except.error "Failed to apply cert-manager manifest",
        [nsEff, .download url, .applyManifest false])
    else if !w.waitOk 0 then
      (Except.error "cert-manager deployment not ready",
        [nsEff, .download url, .applyManifest false, .waitCond "deployment/cert-manager"])
    else if !w.waitOk 1 then
      (Except.error "cert-manager-webhook deployment not ready",
        [nsEff, .download url, .applyManifest false, .waitCond "deployment/cert-manager",
          .waitCond "deployment/cert-manager-webhook"])
    else if !w.waitOk 2 then
      (Except.error "cert-manager-cainjector deployment not ready",
        [nsEff, .download url, .applyManifest false, .waitCond "deployment/cert-manager",
          .waitCond "deployment/cert-manager-webhook",
          .waitCond "deployment/cert-manager-cainjector"])
    else
      (Except.ok (),
        [nsEff, .download url, .applyManifest false, .waitCond "deployment/cert-manager",
          .waitCond "deployment/cert-manager-webhook",
          .waitCond "deployment/cert-manager-cainjector"])

/-- jobset::install (jobset.rs:8-50): check the jobset-system marker
namespace; if present return Ok at once; otherwise download the manifest,
apply it server-side, and wait on the controller deployment. -/
def jobset_install (w : DepWorld) (version : String) :
    Except String Unit × List Effect :=
  let nsEff := Effect.kubectlGet ["get", "namespace", "jobset-system"]
  if w.nsCheckOk then
    (Except.ok (), [nsEff])
  else
    let url := "https://github.com/kubernetes-sigs/jobset/releases/download/"
        ++ version ++ "/manifests.yaml"
    if !w.downloadOk then
      (Except.error "Failed to download JobSet manifest", [nsEff, .download url])
    else if !w.applyOk then
      (Except.error "Failed to apply JobSet manifest",
        [nsEff, .download url, .applyManifest true])
    else if !w.waitOk 0 then
      (Except.error "JobSet controller deployment not ready",
        [nsEff, .download url, .applyManifest true,
          .waitCond "deployment/jobset-controller-manager"])
    else
      (Except.ok (),
        [nsEff, .download url, .applyManifest true,
          .waitCond "deployment/jobset-controller-manager"])

/-- A world whose marker namespace is already present. -/
def markerPresentWorld : DepWorld where
  nsCheckOk := true
  downloadOk := true
  applyOk := true
  waitOk := fun _ => true

/-! ## Worker joins in commands/deploy.rs and commands/build.rs -/

/-- Result a worker thread hands to its join: normal success, a returned
error, or a panic. -/
inductive WorkerOutcome where
  | ok
  | err (msg : String)
  | panicked
  deriving DecidableEq, Repr

/-- One join in the deploy fan-in (deploy.rs:189-209): join() followed by
map_err turns a panic into an error named after the thread; the worker
error itself is propagated unchanged. The Rust message carries a debug
payload after the colon that this model elides. -/
def joinThread (name : String) (r : WorkerOutcome) : Except String Unit :=
  match r with
  | .ok => Except.ok ()
  | .err m => Except.error m
  | .panicked => Except.error (name ++ " thread panicked")

/-- Join every handle in spawn order, propagating the first failure; this
is the deploy-path fan-in policy. -/
def joinAll : List (String × WorkerOutcome) → Except String Unit
  | [] => Except.ok ()
  | (n, r) :: rest =>
    match joinThread n r with
    | Except.ok _ => joinAll rest
    | Except.error m => Except.error m

/-- Outcome of the build fan-out: success, an aggregated task-level
error, or a coordinator panic that unwinds out of build_parallel and
aborts the command. -/
inductive BuildOutcome where
  | ok
  | err (msg : String)
  | coordinatorPanic (msg : String)
  deriving DecidableEq, Repr

/-- True when the outcome is a task-level error result. -/
def isTaskError : BuildOutcome → Bool
  | .err _ => true
  | _ => false

/-- The error strings the build workers push into the shared errors
vector (build.rs:151-152), in spawn order. The runtime push order is
scheduler dependent; the member set is not, and the claims only inspect
membership and emptiness. -/
def collectBuildErrors : List (String × WorkerOutcome) → List String
  | [] => []
  | (c, .err m) :: rest => ("Failed to build " ++ c ++ ": " ++ m) :: collectBuildErrors rest
  | (_, _) :: rest => collectBuildErrors rest

/-- The build fan-in joins each handle with expect (build.rs:166-168), so
the first panicked worker reached makes the coordinator panic. -/
def joinHitsPanic : List (String × WorkerOutcome) → Bool
  | [] => false
  | (_, .panicked) :: _ => true
  | _ :: rest => joinHitsPanic rest

/-- build_parallel (build.rs:80-184) restricted to its fan-in and
aggregation logic: results lists the worker outcomes in spawn order. If
any worker panicked the join loop panics via expect; otherwise the
collected errors, if any, become one aggregated error. -/
def build_parallel (results : List (String × WorkerOutcome)) : BuildOutcome :=
  if joinHitsPanic results then
    BuildOutcome.coordinatorPanic "Thread panicked"
  else
    let errs := collectBuildErrors results
    if errs.isEmpty then BuildOutcome.ok
    else BuildOutcome.err ("Build failures:\n" ++ String.intercalate "\n" errs)

/-! ## commands/deploy.rs: the bundle-path Deployment Sequencer -/

/-- World for deploy_kind with use_bundle, from the operator-source check
through Kueue CR creation. The five dependency joins and the image-load
join are the fan-out results; installBundleResult abstracts
olm::install_bundle, whose internal retry is modelled separately by
run_bundle_with_retry; createCrResult abstracts operator::create_kueue_cr,
modelled separately below. -/
structure DeployWorld where
  sourceDirOk : Bool
  imageConfigOk : Bool
  clusterExists : Bool
  sdkFound : Bool
  kubeconfigFound : Bool
  uninstallResult : Except String Unit
  certManagerJoin : WorkerOutcome
  jobsetJoin : WorkerOutcome
  lwsJoin : WorkerOutcome
  olmJoin : WorkerOutcome
  prometheusJoin : WorkerOutcome
  imageLoadJoin : WorkerOutcome
  installBundleResult : Except String Unit
  waitAvailableOk : Bool
  createCrResult : Except String Unit

/-- deploy_kind with options.use_bundle = true (deploy.rs:35-249):
prechecks, uninstall of any prior operator, lease cleanup, background
image load, five parallel dependency installs joined first-failure-wins,
image-load join, bundle install, wait for the operator deployment to be
Available, a 30 s settle sleep, and finally the Kueue CR step unless
skipped. Every arrow is a hard gate via the question-mark operator. -/
def deploy_kind_bundle (w : DeployWorld) (skipKueueCr : Bool) :
    Except String Unit × List Effect :=
  if !w.sourceDirOk then
    (Except.error "Could not find operator source directory", [])
  else if !w.imageConfigOk then
    (Except.error "Failed to load image configuration", [])
  else if !w.clusterExists then
    (Except.error "Cluster does not exist", [])
  else if !w.sdkFound then
    (Except.error "operator-sdk is required for bundle deployment but not found in PATH", [])
  else if !w.kubeconfigFound then
    (Except.error "Kubeconfig not found", [])
  else
    match w.uninstallResult with
    | Except.error m => (Except.error m, [Effect.uninstallOp])
    | Except.ok _ =>
      let pre := [Effect.uninstallOp, Effect.deleteLease, Effect.imageLoadStart,
        Effect.spawnDepWorkers]
      match joinAll [("cert-manager", w.certManagerJoin), ("jobset", w.jobsetJoin),
          ("leaderworkerset", w.lwsJoin), ("olm", w.olmJoin),
          ("prometheus", w.prometheusJoin)] with
      | Except.error m => (Except.error m, pre)
      | Except.ok _ =>
        match joinThread "image load" w.imageLoadJoin with
        | Except.error m => (Except.error m, pre)
        | Except.ok _ =>
          match w.installBundleResult with
          | Except.error m => (Except.error m, pre ++ [Effect.installBundle])
          | Except.ok _ =>
            let tr := pre ++ [Effect.installBundle,
              Effect.waitCond "deployment/openshift-kueue-operator"]
            if !w.waitAvailableOk then
              (Except.error "Operator deployment did not become available", tr)
            else
              let tr := tr ++ [Effect.sleep 30]
              if skipKueueCr then
                (Except.ok (), tr)
              else
                match w.createCrResult with
                | Except.error m => (Except.error m, tr ++ [Effect.createKueueCREff])
                | Except.ok _ => (Except.ok (), tr ++ [Effect.createKueueCREff])

/-- A deploy world in which every step succeeds. -/
def deployAllOkWorld : DeployWorld where
  sourceDirOk := true
  imageConfigOk := true
  clusterExists := true
  sdkFound := true
  kubeconfigFound := true
  uninstallResult := Except.ok ()
  certManagerJoin := .ok
  jobsetJoin := .ok
  lwsJoin := .ok
  olmJoin := .ok
  prometheusJoin := .ok
  imageLoadJoin := .ok
  installBundleResult := Except.ok ()
  waitAvailableOk := true
  createCrResult := Except.ok ()

/-! ## install/operator.rs: existence poll and Kueue CR creation -/

/-- The timeout error text of wait_for_deployment_to_exist
(operator.rs:155-160), with the format arguments spliced in. -/
def deployExistsErrMsg (name ns : String) : String :=
  "Timeout waiting for deployment/" ++ name ++ " to be created in namespace "
    ++ ns ++ ". The operator may not be reconciling the Kueue CR properly."

/-- The polling loop of wait_for_deployment_to_exist: at iteration i the
query runs; on success return Ok; otherwise if the elapsed budget is
spent return the timeout error, else sleep 5 s and continue. Elapsed time
at iteration i is 5 * i (the sleeps dominate), so the budget check
start.elapsed() >= timeout first fires when the fuel timeoutSecs / 5 is
exhausted. -/
def waitExistGo (query : Nat → Bool) (name ns : String) :
    Nat → Nat → Except String Unit × List Effect
  | i, fuel =>
    let q := Effect.kubectlGet ["get", "deployment", name, "-n", ns]
    if query i then
      (Except.ok (), [q])
    else
      match fuel with
      | 0 => (Except.error (deployExistsErrMsg name ns), [q])
      | f + 1 =>
        let res := waitExistGo query name ns (i + 1) f
        (res.1, q :: Effect.sleep 5 :: res.2)

/-- wait_for_deployment_to_exist (operator.rs:132-166): poll the
deployment query every 5 s until it succeeds or the timeout budget is
spent. -/
def wait_for_deployment_to_exist (query : Nat → Bool) (name ns : String)
    (timeoutSecs : Nat) : Except String Unit × List Effect :=
  waitExistGo query name ns 0 (timeoutSecs / 5)

/-- World for create_kueue_cr: the CR apply, the successive existence
queries for the child controller deployment, and the Available wait. -/
structure CrWorld where
  applyCrOk : Bool
  existsQuery : Nat → Bool
  waitAvailableOk : Bool

/-- create_kueue_cr (operator.rs:96-129): apply the CR, wait for the
kueue-controller-manager deployment to exist with a 60 s budget, then
wait for it to be Available. anyhow context wrapping is modelled as
prefixing the context text to the inner message. -/
def create_kueue_cr (w : CrWorld) (ns : String) :
    Except String Unit × List Effect :=
  if !w.applyCrOk then
    (Except.error "Failed to create Kueue CR", [Effect.applyManifest false])
  else
    let res := wait_for_deployment_to_exist w.existsQuery "kueue-controller-manager" ns 60
    match res.1 with
    | Except.error m =>
      (Except.error ("Kueue controller-manager deployment was not created by operator: " ++ m),
        Effect.applyManifest false :: res.2)
    | Except.ok _ =>
      let tr := Effect.applyManifest false :: res.2
          ++ [Effect.waitCond "deployment/kueue-controller-manager"]
      if !w.waitAvailableOk then
        (Except.error "Kueue controller-manager deployment did not become available", tr)
      else
        (Except.ok (), tr)

/-- A CR world whose child deployment never appears. -/
def crNeverWorld : CrWorld where
  applyCrOk := true
  existsQuery := fun _ => false
  waitAvailableOk := true

/-! ## k8s/kind.rs: cluster lifecycle -/

/-- World for KindCluster::create_with_kubeconfig: the cluster-list
query, the destructive-recreate confirmation prompt, the delete and
create invocations, and the kubeconfig export steps. -/
structure KindWorld where
  listClustersOk : Bool
  clusterListed : Bool
  confirmOk : Bool
  confirmYes : Bool
  deleteOk : Bool
  createOk : Bool
  getKubeconfigOk : Bool
  writeOk : Bool

/-- KindCluster::exists (kind.rs:53-65): list clusters and look for the
name; the spawn-failure and nonzero-status errors are merged into one
failure case. -/
def kind_exists (w : KindWorld) : Except String Bool × List Effect :=
  if !w.listClustersOk then
    (Except.error "Failed to list kind clusters", [Effect.listClusters])
  else
    (Except.ok w.clusterListed, [Effect.listClusters])

/-- KindCluster::export_kubeconfig_with_custom (kind.rs:185-213): run
kind get kubeconfig and write the bytes to the custom path, or to the
default kube.kubeconfig when no custom path is given. -/
def export_kubeconfig_with_custom (w : KindWorld) (customPath : Option String) :
    Except String String × List Effect :=
  let path := customPath.getD "kube.kubeconfig"
  if !w.getKubeconfigOk then
    (Except.error "Failed to get kind kubeconfig", [Effect.kindGetKubeconfig])
  else if !w.writeOk then
    (Except.error "Failed to write kubeconfig file",
      [Effect.kindGetKubeconfig, Effect.fileWrite path])
  else
    (Except.ok path, [Effect.kindGetKubeconfig, Effect.fileWrite path])

/-- The creation tail of create_with_kubeconfig (kind.rs:107-145): create
the cluster (spawn, stdin write, wait, and status failures merged into
one failure case), then export the kubeconfig only when a path was
provided. -/
def createClusterTail (w : KindWorld) (kubeconfig : Option String)
    (t : List Effect) : Except String (Option String) × List Effect :=
  if !w.createOk then
    (Except.error "Failed to create kind cluster", t ++ [Effect.kindCreate])
  else
    match kubeconfig with
    | some p =>
      let (r, t2) := export_kubeconfig_with_custom w (some p)
      (match r with
        | Except.ok path => (Except.ok (some path), t ++ Effect.kindCreate :: t2)
        | Except.error m => (Except.error m, t ++ Effect.kindCreate :: t2))
    | none => (Except.ok none, t ++ [Effect.kindCreate])

/-- KindCluster::create_with_kubeconfig (kind.rs:74-145): if the cluster
already exists, confirm recreation; declining keeps the existing cluster
and exports credentials only when a path was provided; accepting deletes
and recreates. Kubeconfig export happens only under kubeconfig.is_some. -/
def create_with_kubeconfig (w : KindWorld) (kubeconfig : Option String) :
    Except String (Option String) × List Effect :=
  match kind_exists w with
  | (Except.error m, t) => (Except.error m, t)
  | (Except.ok true, t) =>
    if !w.confirmOk then
      (Except.error "Failed to read confirmation", t ++ [Effect.confirmPrompt])
    else if !w.confirmYes then
      match kubeconfig with
      | some p =>
        let (r, t2) := export_kubeconfig_with_custom w (some p)
        (match r with
          | Except.ok path => (Except.ok (some path), t ++ Effect.confirmPrompt :: t2)
          | Except.error m => (Except.error m, t ++ Effect.confirmPrompt :: t2))
      | none => (Except.ok none, t ++ [Effect.confirmPrompt])
    else if !w.deleteOk then
      (Except.error "Failed to delete kind cluster",
        t ++ [Effect.confirmPrompt, Effect.kindDelete])
    else
      createClusterTail w kubeconfig (t ++ [Effect.confirmPrompt, Effect.kindDelete])
  | (Except.ok false, t) => createClusterTail w kubeconfig t

/-- True when the result of create_with_kubeconfig reports a saved
kubeconfig path. -/
def reportsSavedPath : Except String (Option String) → Bool
  | Except.ok (some _) => true
  | _ => false

/-! ## install/olm.rs: uninstall_operator_if_exists -/

/-- World for uninstall_operator_if_exists: the three detection queries,
the operator-sdk PATH lookup, the cleanup invocation, and the
deployment-removal verification queries. -/
structure UninstWorld where
  nsCheckOk : Bool
  deployCheckOk : Bool
  catalogCheckOk : Bool
  sdkFound : Bool
  cleanupSpawn : Bool
  cleanupOut : CmdOutput
  deployGone : Nat → Bool

def uninstNsArgs : List String :=
  ["get", "namespace", "openshift-kueue-operator"]

def uninstDeployArgs : List String :=
  ["get", "deployment", "openshift-kueue-operator", "-n", "openshift-kueue-operator"]

/-- is_operator_installed (olm.rs:9-44): the namespace must exist and
either the operator deployment or the catalog source must exist; both of
the latter queries run whenever the namespace check passes. -/
def is_operator_installed (w : UninstWorld) : Bool × List Effect :=
  if !w.nsCheckOk then
    (false, [Effect.kubectlGet uninstNsArgs])
  else
    (w.deployCheckOk || w.catalogCheckOk,
      [Effect.kubectlGet uninstNsArgs, Effect.kubectlGet uninstDeployArgs,
        Effect.kubectlGet catalogCheckArgs])

/-- The removal-verification loop of uninstall_operator_if_exists
(olm.rs:95-119): up to 12 queries, sleeping 5 s between all but the
last. -/
def uninstVerifyLoop (gone : Nat → Bool) : Nat → Nat → List Effect
  | i, fuel =>
    if gone i then
      [Effect.kubectlGet uninstDeployArgs]
    else
      match fuel with
      | 0 => [Effect.kubectlGet uninstDeployArgs]
      | f + 1 =>
        Effect.kubectlGet uninstDeployArgs :: Effect.sleep 5
          :: uninstVerifyLoop gone (i + 1) f

/-- uninstall_operator_if_exists (olm.rs:47-152): return Ok when nothing
is installed; return Ok without any cleanup when operator-sdk is missing
from PATH; otherwise run cleanup (its status only logged), sleep, verify
removal, then delete the namespace and any remaining Kueue CRs (both
best-effort). -/
def uninstall_operator_if_exists (w : UninstWorld) :
    Except String Unit × List Effect :=
  let res := is_operator_installed w
  if !res.1 then
    (Except.ok (), res.2)
  else if !w.sdkFound then
    (Except.ok (), res.2)
  else if !w.cleanupSpawn then
    (Except.error "Failed to run operator-sdk cleanup", res.2 ++ [Effect.sdkCleanup])
  else
    (Except.ok (),
      res.2 ++ Effect.sdkCleanup :: Effect.sleep 5 :: uninstVerifyLoop w.deployGone 0 11
        ++ [Effect.deleteNamespace, Effect.deleteKueueCRs])

/-- A world with a detected installation but no operator-sdk on PATH. -/
def uninstSkipWorld : UninstWorld where
  nsCheckOk := true
  deployCheckOk := true
  catalogCheckOk := false
  sdkFound := false
  cleanupSpawn := true
  cleanupOut := ⟨true, "", ""⟩
  deployGone := fun _ => true

/-- A world with a detected installation and a fully successful
uninstall. -/
def uninstFullWorld : UninstWorld where
  nsCheckOk := true
  deployCheckOk := true
  catalogCheckOk := false
  sdkFound := true
  cleanupSpawn := true
  cleanupOut := ⟨true, "", ""⟩
  deployGone := fun _ => true

/-! ## k8s/kubectl.rs: wait_for_condition argument construction -/

/-- The kubectl argument list built by wait_for_condition
(kubectl.rs:152-175): base flags, optional namespace, the resource, and
the --all flag exactly when the resource has no slash. -/
def wait_for_condition_args (resource condition : String) (ns : Option String)
    (timeout : String) : List String :=
  let args := ["wait", "--for", condition, "--timeout", timeout]
  let args := args ++ (match ns with | some n => ["-n", n] | none => [])
  let args := args ++ [resource]
  if !(strHasChar resource '/') then args ++ ["--all"] else args

/-! ## Helper lemmas -/

/-- Substring containment is preserved when text is prepended. -/
theorem charsHave_append_right (needle a b : List Char)
    (h : charsHave needle b = true) : charsHave needle (a ++ b) = true := by
  induction a with
  | nil => simpa using h
  | cons c cs ih =>
    simp only [List.cons_append, charsHave, Bool.or_eq_true]
    exact Or.inr ih

/-- String-level version of charsHave_append_right. -/
theorem strContains_append_right (a b needle : String)
    (h : strContains b needle = true) : strContains (a ++ b) needle = true := by
  unfold strContains at h ⊢
  have hd : (a ++ b).data = a.data ++ b.data := rfl
  rw [hd]
  exact charsHave_append_right _ _ _ h

/-- When the existence query never succeeds, the poll loop of
wait_for_deployment_to_exist burns its whole fuel: it returns the timeout
error, issues fuel + 1 queries, sleeps 5 s between consecutive queries,
and never calls the collaborator-native condition wait. -/
theorem waitExistGo_never (query : Nat → Bool) (name ns : String)
    (hq : ∀ i, query i = false) (fuel : Nat) : ∀ i,
    (waitExistGo query name ns i fuel).1 = Except.error (deployExistsErrMsg name ns) ∧
    countEff isQueryEff (waitExistGo query name ns i fuel).2 = fuel + 1 ∧
    sleepTotal (waitExistGo query name ns i fuel).2 = 5 * fuel ∧
    countEff isWaitCondEff (waitExistGo query name ns i fuel).2 = 0 := by
  induction fuel with
  | zero =>
    intro i
    simp [waitExistGo, hq i, countEff, isQueryEff, sleepTotal, isWaitCondEff]
  | succ f ih =>
    intro i
    have h := ih (i + 1)
    simp only [waitExistGo, hq i, Bool.false_eq_true, if_false]
    refine ⟨h.1, ?_, ?_, ?_⟩
    · simp [countEff, isQueryEff, h.2.1]
      omega
    · simp [sleepTotal, h.2.2.1, Nat.mul_succ]
      omega
    · simp [countEff, isWaitCondEff, h.2.2.2]

/-! ## Claim theorems -/

/-- C1 counterexample: a bundle install whose catalog-source pre-check
finds the marker satisfies the claim hypothesis (every attempt
signature-matches, the pre-check counting as an immediate match), yet
run_bundle_with_retry performs only 1 operator-sdk run bundle invocation,
not 2; the cleanup count is 1 as claimed. -/
theorem conflict_retry_precheck_single_invocation :
    allAttemptsConflict olmPrecheckWorld = true ∧
    countEff isRunBundleEff (run_bundle_with_retry olmPrecheckWorld "bundle-img").2 = 1 ∧
    countEff isCleanupEff (run_bundle_with_retry olmPrecheckWorld "bundle-img").2 = 1 := by
  refine ⟨by decide, by decide, by decide⟩

/-- C1 amended: under the all-attempts-conflict hypothesis the installer
makes exactly 1 cleanup call, and exactly 2 run bundle invocations when
the pre-check found nothing but exactly 1 when the pre-existing marker
made the pre-check match (attempt 1 is skipped); in particular never more
than 2. -/
theorem conflict_retry_bounded (w : OlmWorld) (img : String)
    (h : allAttemptsConflict w = true) :
    countEff isCleanupEff (run_bundle_with_retry w img).2 = 1 ∧
    countEff isRunBundleEff (run_bundle_with_retry w img).2
      = (if w.catalogCheckOk then 1 else 2) ∧
    countEff isRunBundleEff (run_bundle_with_retry w img).2 ≤ 2 := by
  cases hc : w.catalogCheckOk with
  | true =>
    simp [allAttemptsConflict, hc] at h
    obtain ⟨⟨⟨h1, h2⟩, h3⟩, h4⟩ := h
    simp [run_bundle_with_retry, cleanup_and_retry, hc, h1, h2, h3, h4,
      countEff, isCleanupEff, isRunBundleEff]
  | false =>
    simp [allAttemptsConflict, hc] at h
    obtain ⟨⟨⟨⟨⟨⟨h1, h2⟩, h3⟩, h4⟩, h5⟩, h6⟩, h7⟩ := h
    simp [run_bundle_with_retry, cleanup_and_retry, hc, h1, h2, h3, h4, h5, h6, h7,
      countEff, isCleanupEff, isRunBundleEff]

/-- C1 witness: the amended bound evaluated on a concrete world whose
pre-check misses and whose every invocation fails with the signature. -/
theorem conflict_retry_bounded_witness :
    countEff isCleanupEff (run_bundle_with_retry olmConflictWorld "img").2 = 1 ∧
    countEff isRunBundleEff (run_bundle_with_retry olmConflictWorld "img").2
      = (if olmConflictWorld.catalogCheckOk then 1 else 2) ∧
    countEff isRunBundleEff (run_bundle_with_retry olmConflictWorld "img").2 ≤ 2 :=
  conflict_retry_bounded olmConflictWorld "img" (by decide)

/-- C2: when the pre-check finds nothing and the first attempt fails
without the conflict signature, run_bundle_with_retry returns the
original error at once, with zero cleanup calls and no second attempt. -/
theorem nonconflict_failure_terminal (w : OlmWorld) (img : String)
    (hpre : w.catalogCheckOk = false) (hspawn : w.bundleSpawn 0 = true)
    (hfail : (w.bundleOut 0).success = false)
    (hsig : conflictSignature (w.bundleOut 0) = false) :
    (run_bundle_with_retry w img).1 =
      Except.error ("operator-sdk run bundle failed:\n"
        ++ (w.bundleOut 0).stdout ++ "\n" ++ (w.bundleOut 0).stderr) ∧
    countEff isCleanupEff (run_bundle_with_retry w img).2 = 0 ∧
    countEff isRunBundleEff (run_bundle_with_retry w img).2 = 1 := by
  simp [run_bundle_with_retry, hpre, hspawn, hfail, hsig,
    countEff, isCleanupEff, isRunBundleEff]

/-- C2 witness: a concrete unrelated failure (an image pull error). -/
theorem nonconflict_failure_terminal_witness :
    (run_bundle_with_retry olmUnrelatedWorld "img").1 =
      Except.error ("operator-sdk run bundle failed:\n"
        ++ (olmUnrelatedWorld.bundleOut 0).stdout ++ "\n"
        ++ (olmUnrelatedWorld.bundleOut 0).stderr) ∧
    countEff isCleanupEff (run_bundle_with_retry olmUnrelatedWorld "img").2 = 0 ∧
    countEff isRunBundleEff (run_bundle_with_retry olmUnrelatedWorld "img").2 = 1 :=
  nonconflict_failure_terminal olmUnrelatedWorld "img" rfl rfl rfl (by decide)

/-- C3: when the marker namespace is present, both cert-manager and
JobSet installers return Ok after the single marker query, with zero
manifest downloads, zero applies, and zero readiness waits. -/
theorem idempotent_marker_short_circuit (w : DepWorld) (vc vj : String)
    (h : w.nsCheckOk = true) :
    cert_manager_install w vc =
      (Except.ok (), [Effect.kubectlGet ["get", "namespace", "cert-manager"]]) ∧
    jobset_install w vj =
      (Except.ok (), [Effect.kubectlGet ["get", "namespace", "jobset-system"]]) ∧
    countEff isDownloadEff (cert_manager_install w vc).2 = 0 ∧
    countEff isApplyEff (cert_manager_install w vc).2 = 0 ∧
    countEff isWaitCondEff (cert_manager_install w vc).2 = 0 ∧
    countEff isDownloadEff (jobset_install w vj).2 = 0 ∧
    countEff isApplyEff (jobset_install w vj).2 = 0 ∧
    countEff isWaitCondEff (jobset_install w vj).2 = 0 := by
  simp [cert_manager_install, jobset_install, h, countEff,
    isDownloadEff, isApplyEff, isWaitCondEff, isQueryEff]

/-- C3 witness: the marker-present world at concrete versions. -/
theorem idempotent_marker_short_circuit_witness :
    cert_manager_install markerPresentWorld "v1.16.1" =
      (Except.ok (), [Effect.kubectlGet ["get", "namespace", "cert-manager"]]) ∧
    jobset_install markerPresentWorld "v0.8.0" =
      (Except.ok (), [Effect.kubectlGet ["get", "namespace", "jobset-system"]]) ∧
    countEff isDownloadEff (cert_manager_install markerPresentWorld "v1.16.1").2 = 0 ∧
    countEff isApplyEff (cert_manager_install markerPresentWorld "v1.16.1").2 = 0 ∧
    countEff isWaitCondEff (cert_manager_install markerPresentWorld "v1.16.1").2 = 0 ∧
    countEff isDownloadEff (jobset_install markerPresentWorld "v0.8.0").2 = 0 ∧
    countEff isApplyEff (jobset_install markerPresentWorld "v0.8.0").2 = 0 ∧
    countEff isWaitCondEff (jobset_install markerPresentWorld "v0.8.0").2 = 0 :=
  idempotent_marker_short_circuit markerPresentWorld "v1.16.1" "v0.8.0" rfl

/-- C4: in the bundle path of deploy_kind, the Kueue CR apply step runs
only if the wait for the operator deployment Available condition
succeeded: any trace containing the CR step comes from a world whose
availability wait returned success. -/
theorem cr_gated_on_operator_available (w : DeployWorld) (skip : Bool)
    (h : Effect.createKueueCREff ∈ (deploy_kind_bundle w skip).2) :
    w.waitAvailableOk = true := by
  simp only [deploy_kind_bundle] at h
  repeat' split at h
  all_goals simp_all

/-- C4 witness: the all-successful deploy world produces the CR step and
indeed had a successful availability wait. -/
theorem cr_gated_on_operator_available_witness :
    deployAllOkWorld.waitAvailableOk = true :=
  cr_gated_on_operator_available deployAllOkWorld false (by decide)

/-- C5 counterexample: a build fan-out with one panicking worker makes
the coordinator panic via expect, aborting the command, instead of
producing a task-level error result. -/
theorem build_worker_panic_aborts :
    build_parallel [("operator", WorkerOutcome.panicked)]
      = BuildOutcome.coordinatorPanic "Thread panicked" ∧
    isTaskError (build_parallel [("operator", WorkerOutcome.panicked)]) = false :=
  ⟨rfl, rfl⟩

/-- A panicked worker anywhere in the list makes the build join loop hit
expect. -/
theorem joinHitsPanic_of_mem (rs : List (String × WorkerOutcome))
    (p : String × WorkerOutcome) (hmem : p ∈ rs)
    (hpan : p.2 = WorkerOutcome.panicked) : joinHitsPanic rs = true := by
  induction rs with
  | nil => cases hmem
  | cons a rest ih =>
    obtain ⟨n, r⟩ := a
    rcases List.mem_cons.mp hmem with h | h
    · rw [h] at hpan
      simp at hpan
      subst hpan
      rfl
    · cases r <;> simp [joinHitsPanic] <;> exact ih h

/-- C5 amended: the two fan-outs treat worker panics differently. The
deploy fan-in (joinAll) converts any panic into a returned error, while
the build fan-in (build_parallel) re-raises it as a coordinator panic
that aborts the command rather than yielding a task-level error. -/
theorem worker_panic_policy_split :
    (∀ l : List (String × WorkerOutcome),
      (∃ p ∈ l, p.2 = WorkerOutcome.panicked) → ∃ m, joinAll l = Except.error m) ∧
    (∀ rs : List (String × WorkerOutcome),
      (∃ p ∈ rs, p.2 = WorkerOutcome.panicked) →
        build_parallel rs = BuildOutcome.coordinatorPanic "Thread panicked") := by
  constructor
  · intro l hl
    induction l with
    | nil => obtain ⟨p, hp, _⟩ := hl; cases hp
    | cons a rest ih =>
      obtain ⟨n, r⟩ := a
      obtain ⟨p, hp, hpan⟩ := hl
      cases r with
      | ok =>
        rcases List.mem_cons.mp hp with h | h
        · subst h; simp at hpan
        · obtain ⟨m, hm⟩ := ih ⟨p, h, hpan⟩
          exact ⟨m, by simpa [joinAll, joinThread] using hm⟩
      | err m => exact ⟨m, rfl⟩
      | panicked => exact ⟨n ++ " thread panicked", rfl⟩
  · intro rs hrs
    obtain ⟨p, hp, hpan⟩ := hrs
    simp [build_parallel, joinHitsPanic_of_mem rs p hp hpan]

/-- C5 witness: the split policy evaluated on concrete one-worker
fan-outs. -/
theorem worker_panic_policy_split_witness :
    (∃ m, joinAll [("cert-manager", WorkerOutcome.panicked)] = Except.error m) ∧
    build_parallel [("operator", WorkerOutcome.panicked)]
      = BuildOutcome.coordinatorPanic "Thread panicked" :=
  ⟨worker_panic_policy_split.1 _ ⟨("cert-manager", WorkerOutcome.panicked), by simp, rfl⟩,
    worker_panic_policy_split.2 _ ⟨("operator", WorkerOutcome.panicked), by simp, rfl⟩⟩

/-- C6 counterexample: the second (post-cleanup) attempt fails while
cleanup itself also failed with its own diagnostic, yet the returned
error carries only the final attempt output under a static prefix; the
cleanup outcome text is absent from the error. -/
theorem cleanup_outcome_absent_from_error :
    (run_bundle_with_retry olmCleanupFailWorld "img").1 =
      Except.error "operator-sdk run bundle failed after cleanup:\nretry stdout\nretry stderr" ∧
    strContains "operator-sdk run bundle failed after cleanup:\nretry stdout\nretry stderr"
      olmCleanupFailWorld.cleanupOut.stderr = false :=
  ⟨rfl, by decide⟩

/-- C6 amended: when the post-cleanup attempt fails, the returned error
is exactly a fixed prefix noting the failure happened after cleanup,
concatenated with the final attempt stdout and stderr; it does not
depend on the cleanup invocation outcome, which is only logged. -/
theorem cleanup_retry_error_contents (w : OlmWorld) (img : String) (k : Nat)
    (hcl : w.cleanupSpawn = true) (hsp : w.bundleSpawn k = true)
    (hfail : (w.bundleOut k).success = false) :
    (cleanup_and_retry w img k).1 =
      Except.error ("operator-sdk run bundle failed after cleanup:\n"
        ++ (w.bundleOut k).stdout ++ "\n" ++ (w.bundleOut k).stderr) := by
  simp [cleanup_and_retry, hcl, hsp, hfail]

/-- C6 witness: the amended error-contents statement at the concrete
failing-cleanup world. -/
theorem cleanup_retry_error_contents_witness :
    (cleanup_and_retry olmCleanupFailWorld "img" 0).1 =
      Except.error ("operator-sdk run bundle failed after cleanup:\n"
        ++ (olmCleanupFailWorld.bundleOut 0).stdout ++ "\n"
        ++ (olmCleanupFailWorld.bundleOut 0).stderr) :=
  cleanup_retry_error_contents olmCleanupFailWorld "img" 0 rfl rfl rfl

/-- C7: when the child deployment query never succeeds, the 60 s
existence wait returns the timeout error after 13 queries and 60 s of
5 s sleeps, the message mentions that the operator may not be
reconciling, and create_kueue_cr propagates that error without ever
issuing the Available condition wait. -/
theorem cr_child_timeout_no_available_poll (w : CrWorld) (ns : String)
    (happly : w.applyCrOk = true) (hq : ∀ i, w.existsQuery i = false) :
    (wait_for_deployment_to_exist w.existsQuery "kueue-controller-manager" ns 60).1
      = Except.error (deployExistsErrMsg "kueue-controller-manager" ns) ∧
    countEff isQueryEff
      (wait_for_deployment_to_exist w.existsQuery "kueue-controller-manager" ns 60).2 = 13 ∧
    sleepTotal
      (wait_for_deployment_to_exist w.existsQuery "kueue-controller-manager" ns 60).2 = 60 ∧
    strContains (deployExistsErrMsg "kueue-controller-manager" ns)
      "may not be reconciling" = true ∧
    (create_kueue_cr w ns).1 = Except.error
      ("Kueue controller-manager deployment was not created by operator: "
        ++ deployExistsErrMsg "kueue-controller-manager" ns) ∧
    countEff isWaitCondEff (create_kueue_cr w ns).2 = 0 := by
  have hw := waitExistGo_never w.existsQuery "kueue-controller-manager" ns hq 12 0
  have e1 : wait_for_deployment_to_exist w.existsQuery "kueue-controller-manager" ns 60
      = waitExistGo w.existsQuery "kueue-controller-manager" ns 0 12 := by
    unfold wait_for_deployment_to_exist
    norm_num
  refine ⟨?_, ?_, ?_, ?_, ?_, ?_⟩
  · rw [e1]; exact hw.1
  · rw [e1]; exact hw.2.1
  · rw [e1]; exact hw.2.2.1
  · unfold deployExistsErrMsg
    apply strContains_append_right
    decide
  · simp [create_kueue_cr, happly, e1, hw.1]
  · simp [create_kueue_cr, happly, e1, hw.1, countEff, isWaitCondEff, hw.2.2.2]

/-- C7 witness: the never-appearing child deployment world. -/
theorem cr_child_timeout_no_available_poll_witness :
    (wait_for_deployment_to_exist crNeverWorld.existsQuery "kueue-controller-manager"
        "openshift-kueue-operator" 60).1
      = Except.error (deployExistsErrMsg "kueue-controller-manager" "openshift-kueue-operator") ∧
    countEff isQueryEff
      (wait_for_deployment_to_exist crNeverWorld.existsQuery "kueue-controller-manager"
        "openshift-kueue-operator" 60).2 = 13 ∧
    sleepTotal
      (wait_for_deployment_to_exist crNeverWorld.existsQuery "kueue-controller-manager"
        "openshift-kueue-operator" 60).2 = 60 ∧
    strContains (deployExistsErrMsg "kueue-controller-manager" "openshift-kueue-operator")
      "may not be reconciling" = true ∧
    (create_kueue_cr crNeverWorld "openshift-kueue-operator").1 = Except.error
      ("Kueue controller-manager deployment was not created by operator: "
        ++ deployExistsErrMsg "kueue-controller-manager" "openshift-kueue-operator") ∧
    countEff isWaitCondEff (create_kueue_cr crNeverWorld "openshift-kueue-operator").2 = 0 :=
  cr_child_timeout_no_available_poll crNeverWorld "openshift-kueue-operator" rfl
    (fun _ => rfl)

/-- C8: create_with_kubeconfig called with no destination path never
writes a credentials file and never reports a saved path; on success it
returns None. -/
theorem no_credentials_export_without_path (w : KindWorld) :
    reportsSavedPath (create_with_kubeconfig w none).1 = false ∧
    countEff isFileWriteEff (create_with_kubeconfig w none).2 = 0 := by
  obtain ⟨l, cl, co, cy, d, cr, g, wo⟩ := w
  cases l <;> cases cl <;> cases co <;> cases cy <;> cases d <;> cases cr <;>
    simp [create_with_kubeconfig, kind_exists, createClusterTail, reportsSavedPath,
      countEff, isFileWriteEff]

/-- C9: a detected installation with operator-sdk missing from PATH makes
uninstall_operator_if_exists return Ok with zero cleanup, namespace
deletion, or CR deletion effects, and the return value is the same
Ok unit a fully executed uninstall returns, so the caller cannot tell
the two apart from the result. -/
theorem uninstall_skipped_when_sdk_missing (w w2 : UninstWorld)
    (hinst : (is_operator_installed w).1 = true) (hsdk : w.sdkFound = false)
    (hinst2 : (is_operator_installed w2).1 = true) (hsdk2 : w2.sdkFound = true)
    (hspawn2 : w2.cleanupSpawn = true) :
    (uninstall_operator_if_exists w).1 = Except.ok () ∧
    countEff isCleanupEff (uninstall_operator_if_exists w).2 = 0 ∧
    countEff isDeleteNamespaceEff (uninstall_operator_if_exists w).2 = 0 ∧
    countEff isDeleteKueueCRsEff (uninstall_operator_if_exists w).2 = 0 ∧
    (uninstall_operator_if_exists w2).1 = (uninstall_operator_if_exists w).1 := by
  have hns : w.nsCheckOk = true := by
    cases hn : w.nsCheckOk
    · simp [is_operator_installed, hn] at hinst
    · rfl
  have hA : (uninstall_operator_if_exists w).1 = Except.ok () := by
    simp [uninstall_operator_if_exists, hinst, hsdk]
  have hB : (uninstall_operator_if_exists w2).1 = Except.ok () := by
    simp [uninstall_operator_if_exists, hinst2, hsdk2, hspawn2]
  refine ⟨hA, ?_, ?_, ?_, by rw [hA, hB]⟩ <;>
    simp [uninstall_operator_if_exists, is_operator_installed, hns, hinst, hsdk,
      countEff, isCleanupEff, isDeleteNamespaceEff, isDeleteKueueCRsEff]

/-- C9 witness: concrete skip and full-uninstall worlds. -/
theorem uninstall_skipped_when_sdk_missing_witness :
    (uninstall_operator_if_exists uninstSkipWorld).1 = Except.ok () ∧
    countEff isCleanupEff (uninstall_operator_if_exists uninstSkipWorld).2 = 0 ∧
    countEff isDeleteNamespaceEff (uninstall_operator_if_exists uninstSkipWorld).2 = 0 ∧
    countEff isDeleteKueueCRsEff (uninstall_operator_if_exists uninstSkipWorld).2 = 0 ∧
    (uninstall_operator_if_exists uninstFullWorld).1
      = (uninstall_operator_if_exists uninstSkipWorld).1 :=
  uninstall_skipped_when_sdk_missing uninstSkipWorld uninstFullWorld rfl rfl rfl rfl rfl

/-- C10: wait_for_condition passes the --all flag exactly when the
resource argument contains no slash, provided none of the other
arguments happens to be the literal flag text. -/
theorem wait_all_flag_iff_unnamed_resource (resource condition : String)
    (ns : Option String) (timeout : String)
    (hc : ("--all" : String) ≠ condition) (ht : ("--all" : String) ≠ timeout)
    (hr : ("--all" : String) ≠ resource)
    (hn : ∀ n, ns = some n → ("--all" : String) ≠ n) :
    "--all" ∈ wait_for_condition_args resource condition ns timeout
      ↔ strHasChar resource '/' = false := by
  cases ns with
  | none =>
    cases h : strHasChar resource '/' <;>
      simp [wait_for_condition_args, h, hc, ht, hr]
  | some n =>
    have hn' := hn n rfl
    cases h : strHasChar resource '/' <;>
      simp [wait_for_condition_args, h, hc, ht, hr, hn']

/-- C10 witness: a name-qualified resource with a namespace, as used for
the operator deployment wait. -/
theorem wait_all_flag_iff_unnamed_resource_witness :
    ("--all" ∈ wait_for_condition_args "deployment/openshift-kueue-operator"
        "condition=Available" (some "openshift-kueue-operator") "300s"
      ↔ strHasChar "deployment/openshift-kueue-operator" '/' = false) :=
  wait_all_flag_iff_unnamed_resource "deployment/openshift-kueue-operator"
    "condition=Available" (some "openshift-kueue-operator") "300s"
    (by decide) (by decide) (by decide)
    (fun n hn => by cases hn; decide)

end KueueDev
